import Mathlib

/-
Shallow embedding of the mcp-expert-server request pipeline.

Source files embedded:
  - src/services/expertService.ts : the ExpertService class (documentation
    store, upstream call wrapper, query/documentation/analysis operations,
    service-description cache, reload).
  - the server module (ListTools / CallTool request handlers, zod argument
    schemas, dispatch and error translation).

The external generation backend is modelled as an oracle
`backend : String → CallOutcome` mapping the assembled prompt to the outcome
of the raced upstream call (timeout, API failure, or a raw response).
Each operation also reports how many upstream calls it issued, so that
claims about the backend being (or not being) invoked are statable.
-/

namespace ExpertServer

/-- A content block of a backend response (interface ClaudeContent in the
source). The `text` field is optional in TypeScript; `none` models an absent
field, and the truthiness test `!content.text` is true for both `none` and
the empty string. -/
structure ClaudeContent where
  type : String
  text : Option String
deriving DecidableEq

/-- A backend response (interface ClaudeResponse); only the `content` array
is inspected by the service. -/
structure ClaudeResponse where
  content : List ClaudeContent
deriving DecidableEq

/-- Outcome of one raced upstream call (callClaude): the race either rejects
with the timeout error, rejects with an API error, or resolves with a raw
response. -/
inductive CallOutcome where
  | timeout
  | apiFailure (msg : String)
  | success (resp : ClaudeResponse)
deriving DecidableEq

/-- validateClaudeResponse(response, context): returns the first content
block's text, or an in-band error string when the response has no content
block or the first block is not a text block with non-empty text. -/
def validateClaudeResponse (response : ClaudeResponse) (context : String) : String :=
  match response.content with
  | [] => "Error: Unable to process " ++ context
  | c :: _ =>
    match c.text with
    | some t => if c.type = "text" ∧ t ≠ "" then t else "Error: Unable to process " ++ context
    | none => "Error: Unable to process " ++ context

/-- Whether a raw response passes validateClaudeResponse's checks (at least
one content block, first block a text block with non-empty text). -/
def responseValid (response : ClaudeResponse) : Bool :=
  match response.content with
  | [] => false
  | c :: _ =>
    match c.text with
    | some t => c.type = "text" && t != ""
    | none => false

/-- Mutable state of an ExpertService instance: the insertion-ordered
documentation map (a JS Map), the three prompt fragments, and the memoized
service description (empty string when not yet computed). -/
structure ExpertState where
  documentation : List (String × String)
  systemPrompt : String
  toolMetadata : String
  queryMetadata : String
  serviceDescription : String
deriving DecidableEq

/-- getAllDocumentation(): empty string when the map is empty, otherwise the
map's values joined by a blank line in insertion order. -/
def getAllDocumentation (s : ExpertState) : String :=
  if s.documentation.isEmpty then ""
  else String.intercalate "\n\n" (s.documentation.map Prod.snd)

/-- getServiceDescription(): the current memoized description. -/
def getServiceDescription (s : ExpertState) : String :=
  s.serviceDescription

/-- The user-message prompt assembled by generateQuery. -/
def queryPrompt (s : ExpertState) (request : String) : String :=
  "Given this API documentation:\n          \n"
    ++ getAllDocumentation s ++ "\n\n"
    ++ (if s.queryMetadata ≠ "" then
          "Additional Query Context:\n" ++ s.queryMetadata ++ "\n\n" else "")
    ++ "\n\nGenerate a query for this request: \"" ++ request
    ++ "\"\n\nPlease return ONLY the query, with no additional explanation or context."

/-- The user-message prompt assembled by getDocumentationResponse. -/
def documentationPrompt (s : ExpertState) (request : String) : String :=
  "Given this API documentation:\n          \n"
    ++ getAllDocumentation s ++ "\n\n"
    ++ (if s.queryMetadata ≠ "" then
          "Additional Context:\n" ++ s.queryMetadata ++ "\n\n" else "")
    ++ "\n\nAnswer this question about the documentation: \"" ++ request
    ++ "\"\n\nPlease provide a clear, concise response based solely on the provided documentation and context."

/-- The user-message prompt assembled by analyzeDocumentation. -/
def analysisPrompt (s : ExpertState) : String :=
  "Analyze this API documentation and provide a concise 1-2 sentence description of what this API/service is about and what it does.\n\nDocumentation:\n"
    ++ getAllDocumentation s ++ "\n\n"
    ++ (if s.toolMetadata ≠ "" then "Additional Context:\n" ++ s.toolMetadata else "")
    ++ "\n\nYour response should be direct and focused on the core functionality, suitable for use in an API tool description."

/-- generateQuery(request): issues one upstream call; on a resolved response
returns validateClaudeResponse's result, on any rejection (timeout or API
failure) returns the catch-block error string. Second component counts
upstream calls issued. -/
def generateQuery (s : ExpertState) (request : String)
    (backend : String → CallOutcome) : String × Nat :=
  match backend (queryPrompt s request) with
  | .success resp =>
      (validateClaudeResponse resp ("query request: \"" ++ request ++ "\""), 1)
  | _ => ("Error: Unable to generate query for request: \"" ++ request ++ "\"", 1)

/-- getDocumentationResponse(request): same structure as generateQuery with
the documentation prompt, context and catch-block message. -/
def getDocumentationResponse (s : ExpertState) (request : String)
    (backend : String → CallOutcome) : String × Nat :=
  match backend (documentationPrompt s request) with
  | .success resp =>
      (validateClaudeResponse resp ("documentation request: \"" ++ request ++ "\""), 1)
  | _ => ("Error: Unable to process documentation request: \"" ++ request ++ "\"", 1)

/-- Models the JS method String.prototype.startsWith used by the source:
true when the first string begins with the second. -/
def strStartsWith (s p : String) : Bool :=
  p.data.isPrefixOf s.data

/-- analyzeDocumentation(): returns the (possibly updated) state, the string
the promise resolves with, and the number of upstream calls issued. When the
corpus is empty it returns the empty string without calling upstream; on a
resolved response whose validated text does not start with "Error:" it
stores the text in serviceDescription and returns the stored value; on a
validated text starting with "Error:" it leaves the state unchanged and
returns the current serviceDescription; on a rejection it returns the empty
string. -/
def analyzeDocumentation (s : ExpertState)
    (backend : String → CallOutcome) : ExpertState × String × Nat :=
  if getAllDocumentation s = "" then (s, "", 0)
  else
    match backend (analysisPrompt s) with
    | .success resp =>
        let description := validateClaudeResponse resp "documentation analysis"
        if strStartsWith description "Error:" then (s, s.serviceDescription, 1)
        else ({ s with serviceDescription := description }, description, 1)
    | _ => (s, "", 1)

/-- The files a load cycle reads from disk (documentation directory plus the
three optional prompt-fragment files, already degraded to empty strings when
missing). -/
structure LoadedFiles where
  documentation : List (String × String)
  systemPrompt : String
  toolMetadata : String
  queryMetadata : String
deriving DecidableEq

/-- The in-between state of reloadDocumentation after the documentation map
has been cleared and the map and the three prompt fragments reloaded from
disk, before the re-analysis runs: the memoized serviceDescription is
carried over, never cleared. -/
def reloadedState (s : ExpertState) (files : LoadedFiles) : ExpertState :=
  { documentation := files.documentation
    systemPrompt := files.systemPrompt
    toolMetadata := files.toolMetadata
    queryMetadata := files.queryMetadata
    serviceDescription := s.serviceDescription }

/-- reloadDocumentation(): clears and reloads the documentation map and the
three prompt fragments from disk, then runs analyzeDocumentation. Returns
the new state and the number of upstream calls issued. -/
def reloadDocumentation (s : ExpertState) (files : LoadedFiles)
    (backend : String → CallOutcome) : ExpertState × Nat :=
  let r := analyzeDocumentation (reloadedState s files) backend
  (r.1, r.2.2)

/-- A JSON value as far as the argument schemas care: the `request` field of
call-tool arguments may be a string, or some other JSON type. -/
inductive JsonValue where
  | str (s : String)
  | num (n : Int)
  | boolean (b : Bool)
  | null
deriving DecidableEq

/-- Zod's name for a JSON value's type, used in its type-mismatch message. -/
def jsonTypeName : JsonValue → String
  | .str _ => "string"
  | .num _ => "number"
  | .boolean _ => "boolean"
  | .null => "null"

/-- The arguments object of a call-tool request; only the `request` field is
consulted by the schemas, `none` models an object without that field. -/
structure RawArgs where
  request : Option JsonValue
deriving DecidableEq

/-- One zod validation issue: the path to the violated field and the
human-readable reason. -/
structure ZodIssue where
  path : List String
  message : String
deriving DecidableEq

/-- QueryArgumentsSchema.parse: z.object with request a string of minimum
length 1 and custom message "Request cannot be empty". -/
def parseQueryArguments (args : RawArgs) : Except (List ZodIssue) String :=
  match args.request with
  | none => .error [⟨["request"], "Required"⟩]
  | some (.str s) =>
      if 1 ≤ s.length then .ok s
      else .error [⟨["request"], "Request cannot be empty"⟩]
  | some v => .error [⟨["request"], "Expected string, received " ++ jsonTypeName v⟩]

/-- DocumentationArgumentsSchema.parse: identical shape to
QueryArgumentsSchema in the source. -/
def parseDocumentationArguments (args : RawArgs) : Except (List ZodIssue) String :=
  match args.request with
  | none => .error [⟨["request"], "Required"⟩]
  | some (.str s) =>
      if 1 ≤ s.length then .ok s
      else .error [⟨["request"], "Request cannot be empty"⟩]
  | some v => .error [⟨["request"], "Expected string, received " ++ jsonTypeName v⟩]

/-- The message the CallTool handler's catch block builds from a ZodError:
every issue's dotted path and reason, comma-joined. -/
def zodErrorMessage (issues : List ZodIssue) : String :=
  "Invalid arguments: "
    ++ String.intercalate ", "
        (issues.map fun e => String.intercalate "." e.path ++ ": " ++ e.message)

/-- A protocol-level error raised by the CallTool handler (thrown Error,
surfaced by the protocol transport rather than returned as content). -/
inductive DispatchError where
  | invalidArguments (msg : String)
  | unknownTool (msg : String)
deriving DecidableEq

/-- One item of a call-tool result's content array. -/
structure TextContent where
  type : String
  text : String
deriving DecidableEq

/-- A successful call-tool result: a content array. -/
structure ToolResult where
  content : List TextContent
deriving DecidableEq

/-- The CallTool request handler: zod-validates the arguments for the named
tool, runs the matching service operation and wraps its string in a single
text-content item; a ZodError becomes an invalidArguments protocol error and
an unrecognized name an unknownTool protocol error. Second component counts
upstream calls issued. -/
def callTool (s : ExpertState) (name : String) (args : RawArgs)
    (backend : String → CallOutcome) : Except DispatchError ToolResult × Nat :=
  if name = "create-query" then
    match parseQueryArguments args with
    | .error issues => (.error (.invalidArguments (zodErrorMessage issues)), 0)
    | .ok queryRequest =>
        let r := generateQuery s queryRequest backend
        (.ok ⟨[⟨"text", r.1⟩]⟩, r.2)
  else if name = "documentation" then
    match parseDocumentationArguments args with
    | .error issues => (.error (.invalidArguments (zodErrorMessage issues)), 0)
    | .ok docRequest =>
        let r := getDocumentationResponse s docRequest backend
        (.ok ⟨[⟨"text", r.1⟩]⟩, r.2)
  else (.error (.unknownTool ("Unknown tool: " ++ name)), 0)

/-- The `request` property of a tool descriptor's input schema. -/
structure RequestProperty where
  type : String
  description : String
deriving DecidableEq

/-- A tool descriptor's input schema: an object with the single property
`request` and its required-field list. -/
structure InputSchema where
  type : String
  request : RequestProperty
  required : List String
deriving DecidableEq

/-- One advertised tool. -/
structure ToolDescriptor where
  name : String
  description : String
  inputSchema : InputSchema
deriving DecidableEq

/-- The two tool descriptors the ListTools handler builds, given the
service description it read after the lazy initialization step: the suffix
is " for " plus the lower-cased description when non-empty, otherwise the
generic fallback phrase. -/
def buildTools (baseDescription : String) : List ToolDescriptor :=
  let toolDescription :=
    if baseDescription ≠ "" then " for " ++ baseDescription.toLower
    else " using the API documentation"
  [ { name := "create-query"
      description := "Generate a query" ++ toolDescription
      inputSchema :=
        { type := "object"
          request :=
            { type := "string"
              description := "Natural language request for the query you want to generate" }
          required := ["request"] } }
  , { name := "documentation"
      description := "Get information about" ++ toolDescription
      inputSchema :=
        { type := "object"
          request :=
            { type := "string"
              description := "Natural language question about the API documentation" }
          required := ["request"] } } ]

/-- The ListTools request handler: when the memoized description is empty it
first runs analyzeDocumentation, then builds the two descriptors from the
description it now reads. Returns the possibly-updated state, the tool list
and the number of upstream calls issued. -/
def listTools (s : ExpertState)
    (backend : String → CallOutcome) : ExpertState × List ToolDescriptor × Nat :=
  if getServiceDescription s = "" then
    let r := analyzeDocumentation s backend
    (r.1, buildTools (getServiceDescription r.1), r.2.2)
  else (s, buildTools (getServiceDescription s), 0)

/-- Phase of one in-flight ListTools handler. The handler body has exactly
one suspension point with shared-state effects on both sides: the await of
the upstream call inside analyzeDocumentation. `start` is a handler that has
not yet run its first atomic block; `awaiting` holds the outcome its
already-issued upstream call will settle with (fixed at call time from the
prompt then assembled); `done` holds the response it produced. -/
inductive HandlerPhase where
  | start
  | awaiting (outcome : CallOutcome)
  | done (tools : List ToolDescriptor)
deriving DecidableEq

/-- State of the single-threaded event loop: the shared ExpertService state,
the total number of upstream calls issued so far, and the in-flight ListTools
handlers. -/
structure ConcSystem where
  shared : ExpertState
  calls : Nat
  handlers : List HandlerPhase
deriving DecidableEq

/-- First atomic block of a ListTools handler: check the memoized
description; when empty, run analyzeDocumentation up to its suspension
point (returning synchronously when the corpus is empty, otherwise issuing
the upstream call and suspending); when non-empty, build the tool list
outright. Returns how many upstream calls this block issued and the
handler's next phase. -/
def listToolsStep1 (s : ExpertState)
    (backend : String → CallOutcome) : Nat × HandlerPhase :=
  if getServiceDescription s = "" then
    if getAllDocumentation s = "" then
      (0, .done (buildTools (getServiceDescription s)))
    else (1, .awaiting (backend (analysisPrompt s)))
  else (0, .done (buildTools (getServiceDescription s)))

/-- Second atomic block of a ListTools handler, from the settling of its
upstream call to its response: the rest of analyzeDocumentation (validate,
conditionally store) followed by building the tool list from the description
now memoized. Returns the updated shared state and the final phase. -/
def listToolsStep2 (s : ExpertState) (outcome : CallOutcome) : ExpertState × HandlerPhase :=
  match outcome with
  | .success resp =>
      let description := validateClaudeResponse resp "documentation analysis"
      if strStartsWith description "Error:" then
        (s, .done (buildTools (getServiceDescription s)))
      else
        let s2 := { s with serviceDescription := description }
        (s2, .done (buildTools (getServiceDescription s2)))
  | _ => (s, .done (buildTools (getServiceDescription s)))

/-- One scheduler step: run the next atomic block of handler i. A handler at
`start` runs its first block; a handler at `awaiting` resumes with its
outcome; stepping a finished or out-of-range handler changes nothing. -/
def schedule (sys : ConcSystem) (backend : String → CallOutcome)
    (i : Nat) : ConcSystem :=
  match sys.handlers[i]? with
  | some .start =>
      let r := listToolsStep1 sys.shared backend
      { shared := sys.shared, calls := sys.calls + r.1, handlers := sys.handlers.set i r.2 }
  | some (.awaiting outcome) =>
      let r := listToolsStep2 sys.shared outcome
      { shared := r.1, calls := sys.calls, handlers := sys.handlers.set i r.2 }
  | _ => sys

/-- A sample service state with two documentation entries and no memoized
description. -/
def sampleState : ExpertState :=
  { documentation := [("a.txt", "Alpha doc"), ("b.md", "Beta doc")]
    systemPrompt := "You are an expert."
    toolMetadata := ""
    queryMetadata := ""
    serviceDescription := "" }

/-- A sample service state whose documentation map is empty. -/
def emptyDocsState : ExpertState :=
  { documentation := []
    systemPrompt := "You are an expert."
    toolMetadata := ""
    queryMetadata := ""
    serviceDescription := "" }

/-- A backend oracle that times out on every prompt. -/
def timeoutBackend : String → CallOutcome := fun _ => .timeout

/-- A backend oracle that always resolves with the given response. -/
def constBackend (resp : ClaudeResponse) : String → CallOutcome :=
  fun _ => .success resp

/-- A well-formed backend response carrying the given text. -/
def textResponse (t : String) : ClaudeResponse :=
  ⟨[{ type := "text", text := some t }]⟩

/-- Spec-side characterization of the documentation join: the contents
concatenated with each adjacent pair separated by exactly the two-character
blank-line separator, in order. -/
def joinBlank : List String → String
  | [] => ""
  | [c] => c
  | c :: c2 :: cs => c ++ "\n\n" ++ joinBlank (c2 :: cs)

section Helpers

/-- A non-empty string has length at least one. -/
theorem one_le_length_of_ne_empty (s : String) (h : s ≠ "") : 1 ≤ s.length := by
  rcases s with ⟨l⟩
  cases l with
  | nil => simp at h
  | cons c cs => simp [String.length]

/-- The response validator yields the in-band error string exactly on
responses failing its checks. -/
theorem validateClaudeResponse_of_invalid (resp : ClaudeResponse) (context : String)
    (h : responseValid resp = false) :
    validateClaudeResponse resp context = "Error: Unable to process " ++ context := by
  rcases resp with ⟨content⟩
  cases content with
  | nil => rfl
  | cons c rest =>
    rcases c with ⟨ty, txt⟩
    cases txt with
    | none => rfl
    | some t =>
      simp only [responseValid, Bool.and_eq_false_iff, decide_eq_false_iff_not,
        bne_eq_false_iff_eq] at h
      simp only [validateClaudeResponse]
      rw [if_neg]
      rintro ⟨rfl, ht⟩
      rcases h with h | h
      · exact h rfl
      · exact ht h

end Helpers

/-- Claim C1: for every well-formed argument object with a non-empty string
request, call-tool on create-query and on documentation returns a successful
result holding exactly one text-content item, never a protocol-level error,
whatever the upstream call does. -/
theorem callTool_valid_args_single_text_item (s : ExpertState) (req : String)
    (backend : String → CallOutcome) (name : String)
    (h : req ≠ "") (hn : name = "create-query" ∨ name = "documentation") :
    ∃ t : String,
      (callTool s name ⟨some (.str req)⟩ backend).1 = .ok ⟨[⟨"text", t⟩]⟩ := by
  have hlen : 1 ≤ req.length := one_le_length_of_ne_empty req h
  rcases hn with hn | hn <;> subst hn
  · exact ⟨(generateQuery s req backend).1, by
      simp [callTool, parseQueryArguments, hlen]⟩
  · exact ⟨(getDocumentationResponse s req backend).1, by
      simp [callTool, parseDocumentationArguments, hlen]⟩

/-- Witness for C1 at a concrete input. -/
theorem callTool_valid_args_single_text_item_witness :
    ∃ t : String,
      (callTool sampleState "create-query" ⟨some (.str "list users")⟩
          timeoutBackend).1 = .ok ⟨[⟨"text", t⟩]⟩ :=
  callTool_valid_args_single_text_item sampleState "list users" timeoutBackend
    "create-query" (by decide) (Or.inl rfl)

/-- Claim C2: when the upstream call for a tool invocation does not settle
within the timeout bound (the raced call rejects with the timeout error),
both tools still return successful text content, and the text is exactly the
documented per-tool error message with the caller's request interpolated
(hence begins with the claimed prefix); no protocol error is raised. -/
theorem callTool_timeout_recovered_as_text (s : ExpertState) (req : String)
    (backend : String → CallOutcome) (h : req ≠ "")
    (hq : backend (queryPrompt s req) = .timeout)
    (hd : backend (documentationPrompt s req) = .timeout) :
    (callTool s "create-query" ⟨some (.str req)⟩ backend).1 =
      .ok ⟨[⟨"text", "Error: Unable to generate query for request: \"" ++ req ++ "\""⟩]⟩ ∧
    (callTool s "documentation" ⟨some (.str req)⟩ backend).1 =
      .ok ⟨[⟨"text", "Error: Unable to process documentation request: \"" ++ req ++ "\""⟩]⟩ := by
  have hlen : 1 ≤ req.length := one_le_length_of_ne_empty req h
  constructor
  · simp [callTool, parseQueryArguments, hlen, generateQuery, hq]
  · simp [callTool, parseDocumentationArguments, hlen, getDocumentationResponse, hd]

/-- Witness for C2 at a concrete input. -/
theorem callTool_timeout_recovered_as_text_witness :
    (callTool sampleState "create-query" ⟨some (.str "list users")⟩
        timeoutBackend).1 =
      .ok ⟨[⟨"text", "Error: Unable to generate query for request: \"list users\""⟩]⟩ ∧
    (callTool sampleState "documentation" ⟨some (.str "list users")⟩
        timeoutBackend).1 =
      .ok ⟨[⟨"text", "Error: Unable to process documentation request: \"list users\""⟩]⟩ :=
  callTool_timeout_recovered_as_text sampleState "list users" timeoutBackend
    (by decide) rfl rfl

/-- Claim C3: for both tool names, call-tool with an empty-string request,
with the request field missing, or with a non-string request fails with an
invalid-arguments protocol error whose message lists the violated field and
its human-readable reason, and no upstream call is issued. -/
theorem callTool_invalid_args_rejected (s : ExpertState)
    (backend : String → CallOutcome) (name : String)
    (hn : name = "create-query" ∨ name = "documentation") :
    callTool s name ⟨some (.str "")⟩ backend =
      (.error (.invalidArguments "Invalid arguments: request: Request cannot be empty"), 0) ∧
    callTool s name ⟨none⟩ backend =
      (.error (.invalidArguments "Invalid arguments: request: Required"), 0) ∧
    ∀ v : JsonValue, (∀ t, v ≠ .str t) →
      callTool s name ⟨some v⟩ backend =
        (.error (.invalidArguments
          ("Invalid arguments: request: Expected string, received " ++ jsonTypeName v)), 0) := by
  rcases hn with hn | hn <;> subst hn <;>
    refine ⟨by rfl, by rfl, fun v hv => ?_⟩ <;>
    · cases v with
      | str t => exact absurd rfl (hv t)
      | num n => rfl
      | boolean b => rfl
      | null => rfl

/-- Witness for C3 at a concrete input. -/
theorem callTool_invalid_args_rejected_witness :
    callTool sampleState "documentation" ⟨some (.str "")⟩ timeoutBackend =
      (.error (.invalidArguments "Invalid arguments: request: Request cannot be empty"), 0) ∧
    callTool sampleState "documentation" ⟨none⟩ timeoutBackend =
      (.error (.invalidArguments "Invalid arguments: request: Required"), 0) ∧
    ∀ v : JsonValue, (∀ t, v ≠ .str t) →
      callTool sampleState "documentation" ⟨some v⟩ timeoutBackend =
        (.error (.invalidArguments
          ("Invalid arguments: request: Expected string, received " ++ jsonTypeName v)), 0) :=
  callTool_invalid_args_rejected sampleState timeoutBackend "documentation" (Or.inr rfl)

/-- The tool list a ListTools call returns is built from the description
memoized in the state the call leaves behind. -/
theorem listTools_descriptor_list (s : ExpertState) (backend : String → CallOutcome) :
    (listTools s backend).2.1 = buildTools (getServiceDescription (listTools s backend).1) := by
  unfold listTools
  split <;> rfl

/-- Claim C4: every ListTools call returns exactly the two descriptors named
create-query and documentation, each with an object input schema requiring
the single string field request; each description is the tool's base phrase
suffixed with " for " plus the lower-cased memoized description when that is
non-empty after the call, else the generic fallback phrase; and when the
memoized description is empty before the call, the handler runs the
description computation as a side effect (its state change and upstream
calls are exactly analyzeDocumentation's), while a non-empty memoized
description leaves the state untouched with no upstream call. -/
theorem listTools_two_fixed_descriptors (s : ExpertState) (backend : String → CallOutcome) :
    (listTools s backend).2.1.length = 2 ∧
    (listTools s backend).2.1.map ToolDescriptor.name = ["create-query", "documentation"] ∧
    (∀ t ∈ (listTools s backend).2.1,
      t.inputSchema.type = "object" ∧ t.inputSchema.required = ["request"] ∧
      t.inputSchema.request.type = "string" ∧
      t.description =
        (if t.name = "create-query" then "Generate a query" else "Get information about")
          ++ (if getServiceDescription (listTools s backend).1 ≠ "" then
                " for " ++ (getServiceDescription (listTools s backend).1).toLower
              else " using the API documentation")) ∧
    (s.serviceDescription = "" →
      (listTools s backend).1 = (analyzeDocumentation s backend).1 ∧
      (listTools s backend).2.2 = (analyzeDocumentation s backend).2.2) ∧
    (s.serviceDescription ≠ "" →
      (listTools s backend).1 = s ∧ (listTools s backend).2.2 = 0) := by
  have hlist := listTools_descriptor_list s backend
  refine ⟨?_, ?_, ?_, ?_, ?_⟩
  · rw [hlist]; simp [buildTools]
  · rw [hlist]; simp [buildTools]
  · intro t ht
    rw [hlist] at ht
    simp only [buildTools, List.mem_cons, List.mem_singleton, List.not_mem_nil,
      or_false] at ht
    rcases ht with rfl | rfl <;> simp [buildTools]
  · intro hs
    unfold listTools
    rw [if_pos (by simpa [getServiceDescription] using hs)]
    exact ⟨rfl, rfl⟩
  · intro hs
    unfold listTools
    rw [if_neg (by simpa [getServiceDescription] using hs)]
    exact ⟨rfl, rfl⟩

/-- Witness for C4 at a concrete input. -/
theorem listTools_two_fixed_descriptors_witness :
    (listTools sampleState timeoutBackend).2.1.length = 2 ∧
    (listTools sampleState timeoutBackend).2.1.map ToolDescriptor.name =
      ["create-query", "documentation"] ∧
    (∀ t ∈ (listTools sampleState timeoutBackend).2.1,
      t.inputSchema.type = "object" ∧ t.inputSchema.required = ["request"] ∧
      t.inputSchema.request.type = "string" ∧
      t.description =
        (if t.name = "create-query" then "Generate a query" else "Get information about")
          ++ (if getServiceDescription (listTools sampleState timeoutBackend).1 ≠ "" then
                " for " ++ (getServiceDescription (listTools sampleState timeoutBackend).1).toLower
              else " using the API documentation")) ∧
    (sampleState.serviceDescription = "" →
      (listTools sampleState timeoutBackend).1 = (analyzeDocumentation sampleState timeoutBackend).1 ∧
      (listTools sampleState timeoutBackend).2.2 = (analyzeDocumentation sampleState timeoutBackend).2.2) ∧
    (sampleState.serviceDescription ≠ "" →
      (listTools sampleState timeoutBackend).1 = sampleState ∧
      (listTools sampleState timeoutBackend).2.2 = 0) :=
  listTools_two_fixed_descriptors sampleState timeoutBackend

/-- Claim C5 counterexample: a backend reply with no content block fails
validation, yet create-query's recovery text is the validator's
"Unable to process query request" message, which is not the timeout
message and does not begin with the prefix the claim states. -/
theorem validation_failure_message_differs :
    responseValid ⟨[]⟩ = false ∧
    (generateQuery sampleState "list users" (constBackend ⟨[]⟩)).1 =
      "Error: Unable to process query request: \"list users\"" ∧
    strStartsWith (generateQuery sampleState "list users" (constBackend ⟨[]⟩)).1
      "Error: Unable to generate query for request:" = false :=
  ⟨rfl, rfl, rfl⟩

/-- Claim C5 as amended: when the backend replies but the reply fails
validation, both tools still return successful text, with the text
"Error: Unable to process query request: "<request>"" for create-query
(unlike its timeout message) and
"Error: Unable to process documentation request: "<request>"" for
documentation (identical to its timeout message). -/
theorem malformed_response_recovery (s : ExpertState) (req : String)
    (backend : String → CallOutcome) (respq respd : ClaudeResponse)
    (hq : backend (queryPrompt s req) = .success respq)
    (hvq : responseValid respq = false)
    (hd : backend (documentationPrompt s req) = .success respd)
    (hvd : responseValid respd = false) :
    (generateQuery s req backend).1 =
      "Error: Unable to process query request: \"" ++ req ++ "\"" ∧
    (getDocumentationResponse s req backend).1 =
      "Error: Unable to process documentation request: \"" ++ req ++ "\"" := by
  constructor
  · simp only [generateQuery, hq]
    rw [validateClaudeResponse_of_invalid respq _ hvq]
    have hc : ("Error: Unable to process " : String) ++ "query request: \"" =
        "Error: Unable to process query request: \"" := rfl
    rw [← String.append_assoc, ← String.append_assoc, hc]
  · simp only [getDocumentationResponse, hd]
    rw [validateClaudeResponse_of_invalid respd _ hvd]
    have hc : ("Error: Unable to process " : String) ++ "documentation request: \"" =
        "Error: Unable to process documentation request: \"" := rfl
    rw [← String.append_assoc, ← String.append_assoc, hc]

/-- Witness for the amended C5 at a concrete input. -/
theorem malformed_response_recovery_witness :
    (generateQuery sampleState "list users" (constBackend ⟨[]⟩)).1 =
      "Error: Unable to process query request: \"" ++ "list users" ++ "\"" ∧
    (getDocumentationResponse sampleState "list users" (constBackend ⟨[]⟩)).1 =
      "Error: Unable to process documentation request: \"" ++ "list users" ++ "\"" :=
  malformed_response_recovery sampleState "list users" (constBackend ⟨[]⟩)
    ⟨[]⟩ ⟨[]⟩ rfl rfl rfl rfl

/-- The accumulator-passing loop of String.intercalate appends the separator
and continues. -/
theorem intercalate_go_append (sep : String) (l : List String) :
    ∀ acc b, String.intercalate.go acc sep (b :: l) =
      acc ++ sep ++ String.intercalate.go b sep l := by
  induction l with
  | nil => intro acc b; simp [String.intercalate.go]
  | cons c l' ih =>
    intro acc b
    show String.intercalate.go (acc ++ sep ++ b) sep (c :: l') = _
    rw [ih (acc ++ sep ++ b) c, ih b c]
    simp [String.append_assoc]

/-- String.intercalate with the blank-line separator is the blank-line
join. -/
theorem intercalate_eq_joinBlank : ∀ l : List String,
    String.intercalate "\n\n" l = joinBlank l := by
  intro l
  induction l with
  | nil => rfl
  | cons c cs ih =>
    cases cs with
    | nil => rfl
    | cons c2 cs2 =>
      show String.intercalate.go c "\n\n" (c2 :: cs2) = _
      rw [intercalate_go_append "\n\n" cs2 c c2]
      simp only [joinBlank]
      rw [← ih]
      rfl

/-- Claim C6: getAllDocumentation returns the loaded entries' contents
joined with exactly one blank line between each adjacent pair, in insertion
order, and the empty string when no entries are loaded. -/
theorem getAllDocumentation_blank_line_join (s : ExpertState) :
    getAllDocumentation s = joinBlank (s.documentation.map Prod.snd) ∧
    (s.documentation = [] → getAllDocumentation s = "") := by
  constructor
  · rcases h : s.documentation with _ | ⟨e, rest⟩
    · unfold getAllDocumentation
      rw [h]
      rfl
    · unfold getAllDocumentation
      rw [h, if_neg (by simp)]
      exact intercalate_eq_joinBlank _
  · intro h
    unfold getAllDocumentation
    rw [h]
    rfl

/-- Witness for C6 at a concrete input. -/
theorem getAllDocumentation_blank_line_join_witness :
    getAllDocumentation sampleState = joinBlank (sampleState.documentation.map Prod.snd) ∧
    (sampleState.documentation = [] → getAllDocumentation sampleState = "") :=
  getAllDocumentation_blank_line_join sampleState

/-- When every resolution the analysis call could settle with carries an
"Error:"-prefixed validated text — in particular when the call rejects —
the analysis leaves the whole state unchanged. -/
theorem analyzeDocumentation_state_of_fail (s : ExpertState)
    (backend : String → CallOutcome)
    (hfail : ∀ resp, backend (analysisPrompt s) = .success resp →
      strStartsWith (validateClaudeResponse resp "documentation analysis")
        "Error:" = true) :
    (analyzeDocumentation s backend).1 = s := by
  unfold analyzeDocumentation
  split
  · rfl
  · rcases hb : backend (analysisPrompt s) with _ | m | resp
    · rfl
    · rfl
    · simp [hfail resp hb]

/-- Under the same failure condition, with the cache previously absent, the
analysis resolves with the empty string. -/
theorem analyzeDocumentation_empty_of_fail (s : ExpertState)
    (backend : String → CallOutcome) (hs : s.serviceDescription = "")
    (hfail : ∀ resp, backend (analysisPrompt s) = .success resp →
      strStartsWith (validateClaudeResponse resp "documentation analysis")
        "Error:" = true) :
    (analyzeDocumentation s backend).2.1 = "" := by
  unfold analyzeDocumentation
  split
  · rfl
  · rcases hb : backend (analysisPrompt s) with _ | m | resp
    · rfl
    · rfl
    · simp [hfail resp hb, hs]

/-- When the corpus is non-empty and the analysis call resolves with a
validated text not prefixed "Error:", the analysis stores that text and
resolves with it, after one upstream call. -/
theorem analyzeDocumentation_stores (s : ExpertState)
    (backend : String → CallOutcome) (resp : ClaudeResponse)
    (hb : backend (analysisPrompt s) = .success resp)
    (hok : strStartsWith (validateClaudeResponse resp "documentation analysis")
      "Error:" = false)
    (hd : getAllDocumentation s ≠ "") :
    analyzeDocumentation s backend =
      ({ s with serviceDescription :=
          validateClaudeResponse resp "documentation analysis" },
        validateClaudeResponse resp "documentation analysis", 1) := by
  unfold analyzeDocumentation
  rw [if_neg hd, hb]
  simp only [hok, if_false, Bool.false_eq_true]

/-- Claim C7 counterexample: with the cache absent, the backend resolves
with a response that passes validation, so the computation is successful
and per the claim its validated text "Error: test" should be stored and
returned; the code instead treats it as a failure, returns the empty string
and stores nothing. -/
theorem analysis_error_text_not_stored :
    sampleState.serviceDescription = "" ∧
    responseValid (textResponse "Error: test") = true ∧
    validateClaudeResponse (textResponse "Error: test") "documentation analysis" =
      "Error: test" ∧
    (analyzeDocumentation sampleState
        (constBackend (textResponse "Error: test"))).1.serviceDescription = "" ∧
    (analyzeDocumentation sampleState
        (constBackend (textResponse "Error: test"))).2.1 = "" :=
  ⟨rfl, rfl, rfl, rfl, rfl⟩

/-- Claim C7 as amended: with the cache absent, when the computation fails —
the backend call rejects, the response fails validation, or the validated
text begins with "Error:" — the analysis returns the empty string without
raising and leaves the cache absent; when the validated text does not begin
with "Error:" (and the corpus is non-empty), the text is stored in the cache
and returned. -/
theorem analysis_failure_absorbed (s : ExpertState)
    (backend : String → CallOutcome) (hs : s.serviceDescription = "") :
    ((∀ resp, backend (analysisPrompt s) = .success resp →
        strStartsWith (validateClaudeResponse resp "documentation analysis")
          "Error:" = true) →
      (analyzeDocumentation s backend).1 = s ∧
      (analyzeDocumentation s backend).2.1 = "") ∧
    (∀ resp, backend (analysisPrompt s) = .success resp →
      strStartsWith (validateClaudeResponse resp "documentation analysis")
        "Error:" = false →
      getAllDocumentation s ≠ "" →
      (analyzeDocumentation s backend).1.serviceDescription =
        validateClaudeResponse resp "documentation analysis" ∧
      (analyzeDocumentation s backend).2.1 =
        validateClaudeResponse resp "documentation analysis") := by
  constructor
  · intro hfail
    exact ⟨analyzeDocumentation_state_of_fail s backend hfail,
      analyzeDocumentation_empty_of_fail s backend hs hfail⟩
  · intro resp hb hok hd
    rw [analyzeDocumentation_stores s backend resp hb hok hd]
    exact ⟨rfl, rfl⟩

/-- Witness for the amended C7 at a concrete input. -/
theorem analysis_failure_absorbed_witness :
    (analyzeDocumentation sampleState timeoutBackend).1 = sampleState ∧
    (analyzeDocumentation sampleState timeoutBackend).2.1 = "" :=
  (analysis_failure_absorbed sampleState timeoutBackend rfl).1
    (fun _ h => nomatch h)

/-- A service state whose description was memoized before a reload. -/
def staleState : ExpertState :=
  { sampleState with serviceDescription := "Old API." }

/-- A fresh on-disk snapshot for a reload. -/
def newFiles : LoadedFiles :=
  ⟨[("c.txt", "Gamma doc")], "You are an expert.", "", ""⟩

/-- Claim C8 counterexample: a reload whose re-analysis times out completes
with the pre-reload description still memoized — the upstream call was
attempted (count 1) but produced nothing, and the old value survives
instead of the cache being cleared. -/
theorem stale_description_survives_reload :
    staleState.serviceDescription = "Old API." ∧
    (reloadDocumentation staleState newFiles timeoutBackend).2 = 1 ∧
    (reloadDocumentation staleState newFiles
        timeoutBackend).1.serviceDescription = "Old API." :=
  ⟨rfl, rfl, rfl⟩

/-- Claim C8 as amended: reloadDocumentation re-runs the description
analysis over the reloaded snapshot; when the re-analysis produces a fresh
validated description the cache holds it, but the cache is never cleared:
when the re-analysis fails to produce one, the description computed before
the reload survives as the cached value. -/
theorem reload_description_cache (s : ExpertState) (files : LoadedFiles)
    (backend : String → CallOutcome) :
    ((∀ resp, backend (analysisPrompt (reloadedState s files)) = .success resp →
        strStartsWith (validateClaudeResponse resp "documentation analysis")
          "Error:" = true) →
      (reloadDocumentation s files backend).1.serviceDescription =
        s.serviceDescription) ∧
    (∀ resp, backend (analysisPrompt (reloadedState s files)) = .success resp →
      strStartsWith (validateClaudeResponse resp "documentation analysis")
        "Error:" = false →
      getAllDocumentation (reloadedState s files) ≠ "" →
      (reloadDocumentation s files backend).1.serviceDescription =
        validateClaudeResponse resp "documentation analysis") := by
  constructor
  · intro hfail
    show (analyzeDocumentation (reloadedState s files) backend).1.serviceDescription = _
    rw [analyzeDocumentation_state_of_fail (reloadedState s files) backend hfail]
    rfl
  · intro resp hb hok hd
    show (analyzeDocumentation (reloadedState s files) backend).1.serviceDescription = _
    rw [analyzeDocumentation_stores (reloadedState s files) backend resp hb hok hd]

/-- Witness for the amended C8 at a concrete input. -/
theorem reload_description_cache_witness :
    (reloadDocumentation staleState newFiles
        timeoutBackend).1.serviceDescription = staleState.serviceDescription :=
  (reload_description_cache staleState newFiles timeoutBackend).1
    (fun _ h => nomatch h)

/-- Claim C9 counterexample: with the corpus empty, the description analysis
short-circuits — it resolves with the empty string after zero upstream
calls even though the backend would have succeeded — contradicting the
claim that all three operations still attempt the upstream call. -/
theorem analysis_short_circuits_on_empty_corpus :
    getAllDocumentation emptyDocsState = "" ∧
    analyzeDocumentation emptyDocsState
        (constBackend (textResponse "A query API.")) = (emptyDocsState, "", 0) :=
  ⟨rfl, rfl⟩

/-- Claim C9 as amended: an empty corpus is not an error state, and query
generation and documentation answering still issue their one upstream call
each; the description analysis instead short-circuits, returning the empty
string after zero upstream calls. -/
theorem empty_corpus_degrades (s : ExpertState) (req : String)
    (backend : String → CallOutcome) (hd : getAllDocumentation s = "") :
    (generateQuery s req backend).2 = 1 ∧
    (getDocumentationResponse s req backend).2 = 1 ∧
    analyzeDocumentation s backend = (s, "", 0) := by
  refine ⟨?_, ?_, ?_⟩
  · unfold generateQuery
    rcases backend (queryPrompt s req) with _ | m | resp <;> rfl
  · unfold getDocumentationResponse
    rcases backend (documentationPrompt s req) with _ | m | resp <;> rfl
  · unfold analyzeDocumentation
    rw [if_pos hd]

/-- Witness for the amended C9 at a concrete input. -/
theorem empty_corpus_degrades_witness :
    (generateQuery emptyDocsState "list users" timeoutBackend).2 = 1 ∧
    (getDocumentationResponse emptyDocsState "list users" timeoutBackend).2 = 1 ∧
    analyzeDocumentation emptyDocsState timeoutBackend = (emptyDocsState, "", 0) :=
  empty_corpus_degrades emptyDocsState "list users" timeoutBackend rfl

/-- An event-loop state with two ListTools handlers pending before any
computation has started. -/
def twoPending : ConcSystem := ⟨sampleState, 0, [.start, .start]⟩

/-- Claim C10 counterexample: two concurrent ListTools invocations arriving
while the cache is absent, each running its first atomic block before the
first upstream call resolves, issue two upstream requests, not one. -/
theorem concurrent_duplicate_upstream_calls :
    twoPending.calls = 0 ∧
    twoPending.shared.serviceDescription = "" ∧
    twoPending.handlers = [.start, .start] ∧
    (schedule (schedule twoPending timeoutBackend 0) timeoutBackend 1).calls = 2 :=
  ⟨rfl, rfl, rfl, rfl⟩

/-- Claim C10 as amended: there is no single-flight guard — every handler
that checks the still-absent cache before any computation resolves issues
its own upstream request (when the corpus is non-empty), leaving the cache
still absent for the next one; so N such concurrent invocations issue N
upstream requests rather than sharing one pending outcome. -/
theorem pre_resolution_caller_issues_own_call (sys : ConcSystem)
    (backend : String → CallOutcome) (i : Nat)
    (hi : sys.handlers[i]? = some .start)
    (hs : sys.shared.serviceDescription = "")
    (hd : getAllDocumentation sys.shared ≠ "") :
    (schedule sys backend i).calls = sys.calls + 1 ∧
    (schedule sys backend i).shared = sys.shared ∧
    (schedule sys backend i).handlers[i]? =
      some (.awaiting (backend (analysisPrompt sys.shared))) := by
  have hlt : i < sys.handlers.length := by
    rcases List.getElem?_eq_some_iff.mp hi with ⟨h, _⟩
    exact h
  have hstep : listToolsStep1 sys.shared backend =
      (1, .awaiting (backend (analysisPrompt sys.shared))) := by
    unfold listToolsStep1
    rw [if_pos (by simpa [getServiceDescription] using hs), if_neg hd]
  unfold schedule
  rw [hi]
  refine ⟨by rw [hstep], rfl, ?_⟩
  rw [hstep]
  exact List.getElem?_set_self hlt

/-- Witness for the amended C10 at a concrete input. -/
theorem pre_resolution_caller_issues_own_call_witness :
    (schedule twoPending timeoutBackend 0).calls = twoPending.calls + 1 ∧
    (schedule twoPending timeoutBackend 0).shared = twoPending.shared ∧
    (schedule twoPending timeoutBackend 0).handlers[0]? =
      some (.awaiting (timeoutBackend (analysisPrompt twoPending.shared))) :=
  pre_resolution_caller_issues_own_call twoPending timeoutBackend 0 rfl rfl
    (by decide)

end ExpertServer

